import Mathlib

/-!
Verification of `src/Basics/my_project/src/main.rs`.

The program is a straight-line Rust `main` that prints a fixed sequence of
lines (a greeting, an arithmetic line, a branch result, a counted loop, and
a call to `greet`), plus the auxiliary function `greet`.  We embed it
shallowly: each `println!` contributes one element to an output list of
lines; the single arithmetic mutation `y += 5` on an `i32` is modelled as a
checked addition returning `Except` (in debug builds Rust panics on
overflow, which is the only potential failure path in the program); the
inclusive range `1..=5` is modelled by a recursive range function on `Int`.
-/

namespace Basics

/-- Smallest `i32` value. -/
def i32Min : Int := -(2 ^ 31)

/-- Largest `i32` value. -/
def i32Max : Int := 2 ^ 31 - 1

/-- Checked `i32` addition: Rust's `y += 5` in a debug build panics when the
result leaves the `i32` range, which we model as an `Except.error`. -/
def addI32 (a b : Int) : Except String Int :=
  if a + b < i32Min ∨ i32Max < a + b then
    Except.error "attempt to add with overflow"
  else
    Except.ok (a + b)

/-- Rust's inclusive range `lo..=hi` iterated in ascending order,
as in `for i in 1..=5` (main.rs line 19). -/
def rangeIncl (lo hi : Int) : List Int :=
  if h : lo ≤ hi then lo :: rangeIncl (lo + 1) hi else []
termination_by (hi + 1 - lo).toNat
decreasing_by omega

/-- Embedding of `fn greet(name: &str)` (main.rs lines 27-29):
`println!("Hello, {}!", name)` writes exactly one line, the input
interpolated verbatim between the fixed prefix and suffix. -/
def greet (name : String) : List String :=
  ["Hello, " ++ name ++ "!"]

/-- Embedding of the conditional (main.rs lines 12-16) with the compared
value abstracted: `if number < 10` prints `Single digit`, else
`Double digit`. -/
def digitBranch (number : Int) : List String :=
  if number < 10 then ["Single digit"] else ["Double digit"]

/-- The line printed by one loop iteration (main.rs line 20):
`println!("Number: {}", i)`. -/
def numberLine (i : Int) : String :=
  "Number: " ++ toString i

/-- Embedding of `fn main` (main.rs lines 1-25), with the argument of the
final `greet` call abstracted so that the frame effect of changing it can
be stated.  The body follows the source statement by statement; the output
is the concatenation of all lines written. -/
def runMainWith (greetArg : String) : Except String (List String) := do
  let x : Int := 5
  let y : Int := 10
  let y ← addI32 y 5
  Except.ok <|
    ["Hello, world!"]
    ++ ["--------------"]
    ++ ["x: " ++ toString x ++ ", y: " ++ toString y]
    ++ ["--------------"]
    ++ digitBranch 7
    ++ ["--------------"]
    ++ (rangeIncl 1 5).map numberLine
    ++ ["--------------"]
    ++ greet greetArg

/-- `fn main` exactly as written: the `greet` call receives the literal
`"Rustacean"` (main.rs line 24). -/
def runMain : Except String (List String) :=
  runMainWith "Rustacean"

/-- The process inputs `main` could in principle observe: command-line
arguments and environment variables.  The source consults neither. -/
structure ProcInput where
  args : List String
  env : List (String × String)

/-- The whole process: `main.rs` reads nothing from `input`, so the run is
`runMain` regardless of it. -/
def runProgram (_input : ProcInput) : Except String (List String) :=
  runMain

/-- Process exit code: 0 when `main` returns normally, 101 when a Rust
panic aborts the process. -/
def exitCode (r : Except String (List String)) : Int :=
  match r with
  | Except.ok _ => 0
  | Except.error _ => 101

/-- The 13 lines of §6 of the spec, in order. -/
def specLines : List String :=
  [ "Hello, world!"
  , "--------------"
  , "x: 5, y: 15"
  , "--------------"
  , "Single digit"
  , "--------------"
  , "Number: 1"
  , "Number: 2"
  , "Number: 3"
  , "Number: 4"
  , "Number: 5"
  , "--------------"
  , "Hello, Rustacean!" ]

/-- The inclusive range `1..=5` evaluates to the list `[1, 2, 3, 4, 5]`. -/
theorem rangeIncl_one_five : rangeIncl 1 5 = [1, 2, 3, 4, 5] := by
  simp [rangeIncl]

/-- The inclusive range `lo..=hi` yields exactly `(hi + 1 - lo).toNat`
values, so every such loop performs a finite, bounded number of
iterations. -/
theorem rangeIncl_length (lo hi : Int) :
    (rangeIncl lo hi).length = (hi + 1 - lo).toNat := by
  unfold rangeIncl
  split
  next h =>
    rw [List.length_cons, rangeIncl_length (lo + 1) hi]
    omega
  next h =>
    simp
    omega
termination_by (hi + 1 - lo).toNat
decreasing_by omega

/-- Running `main` with the `greet` argument abstracted produces the 12
fixed lines followed by `Hello, <arg>!`. -/
theorem runMainWith_eq (s : String) :
    runMainWith s = Except.ok (specLines.dropLast ++ ["Hello, " ++ s ++ "!"]) := by
  simp only [runMainWith, rangeIncl_one_five]
  rfl

/-- Running `main` as written produces exactly the 13 lines of §6. -/
theorem runMain_eq : runMain = Except.ok specLines := by
  simp only [runMain, runMainWith, rangeIncl_one_five]
  rfl

/-- Claim C1: executing the entry point writes exactly the 13-line
sequence of spec §6, in that order, with no extra lines, for every
process input. -/
theorem main_output_is_exactly_spec_lines (input : ProcInput) :
    runProgram input = Except.ok specLines ∧ specLines.length = 13 :=
  ⟨runMain_eq, rfl⟩

/-- Claim C2: the mutable binding ends at 10 + 5 = 15 (the checked i32
addition succeeds), the immutable binding shows its literal 5, and the
third output line is exactly `x: 5, y: 15`. -/
theorem arithmetic_line_values (input : ProcInput) :
    addI32 10 5 = Except.ok (10 + 5) ∧
    (∃ ls, runProgram input = Except.ok ls ∧
      ls[2]? = some ("x: " ++ toString (5 : Int) ++ ", y: " ++ toString (10 + 5 : Int)) ∧
      ls[2]? = some "x: 5, y: 15") :=
  ⟨rfl, specLines, runMain_eq, rfl, rfl⟩

/-- Claim C3: the branch evaluates `value < 10` rather than hard-coding
its outcome: at the fixed literal 7 it emits `Single digit`, and at any
value at least 10 the same branch emits `Double digit`. -/
theorem branch_evaluates_comparison (n : Int) (h : 10 ≤ n) :
    digitBranch 7 = ["Single digit"] ∧ digitBranch n = ["Double digit"] := by
  refine ⟨rfl, ?_⟩
  unfold digitBranch
  rw [if_neg (by omega)]

/-- Witness for C3 at the boundary value 10. -/
theorem branch_evaluates_comparison_witness :
    10 ≤ (10 : Int) ∧
    digitBranch 7 = ["Single digit"] ∧ digitBranch 10 = ["Double digit"] :=
  ⟨by decide, branch_evaluates_comparison 10 (by decide)⟩

/-- Claim C4: the loop iterates over the inclusive range 1 to 5 and emits
exactly 5 lines `Number: 1` through `Number: 5`, one per value, strictly
ascending with no repetition. -/
theorem loop_emits_five_ascending_lines :
    rangeIncl 1 5 = [1, 2, 3, 4, 5] ∧
    ((rangeIncl 1 5).map numberLine).length = 5 ∧
    (rangeIncl 1 5).map numberLine =
      ["Number: 1", "Number: 2", "Number: 3", "Number: 4", "Number: 5"] ∧
    List.Pairwise (· < ·) (rangeIncl 1 5) := by
  rw [rangeIncl_one_five]
  exact ⟨rfl, rfl, rfl, by decide⟩

/-- Claim C5: for every input string, `greet` writes exactly one line,
`Hello, <name>!`, with the input interpolated verbatim and no validation
or return value. -/
theorem greet_one_verbatim_line (name : String) :
    greet name = ["Hello, " ++ name ++ "!"] ∧ (greet name).length = 1 :=
  ⟨rfl, rfl⟩

/-- Claim C6: the final line is `Hello, Rustacean!` for the fixed literal
argument, and changing the `greet` argument to any string `s` changes only
the final line (to `Hello, <s>!`), leaving the 12 preceding lines
unchanged. -/
theorem greet_argument_frame_effect (s : String) :
    runMain = Except.ok specLines ∧
    specLines.getLast? = some "Hello, Rustacean!" ∧
    runMainWith s = Except.ok (specLines.dropLast ++ ["Hello, " ++ s ++ "!"]) :=
  ⟨runMain_eq, rfl, runMainWith_eq s⟩

/-- Claim C7: no operation of the program can fail (the one checked
operation succeeds), so every execution returns normally and the exit
code is 0 regardless of the process input. -/
theorem exit_code_always_zero (input : ProcInput) :
    (∃ ls, runProgram input = Except.ok ls) ∧ exitCode (runProgram input) = 0 :=
  ⟨⟨specLines, runMain_eq⟩, by rw [runProgram, runMain_eq]; rfl⟩

/-- Claim C8: the program consults no external input, so any two
executions produce identical results. -/
theorem output_deterministic (i1 i2 : ProcInput) :
    runProgram i1 = runProgram i2 :=
  rfl

/-- Claim C9: the only iteration construct is bounded — any inclusive
range yields finitely many values, `1..=5` yields exactly 5 — and every
execution of the entry point completes with a finite output of 13
lines. -/
theorem program_terminates (lo hi : Int) (input : ProcInput) :
    (rangeIncl lo hi).length = (hi + 1 - lo).toNat ∧
    (rangeIncl 1 5).length = 5 ∧
    (∃ ls, runProgram input = Except.ok ls ∧ ls.length = 13) :=
  ⟨rangeIncl_length lo hi, by rw [rangeIncl_one_five]; rfl, specLines, runMain_eq, rfl⟩

/-- Claim C10: calling `greet` with the empty string emits exactly the
line `Hello, !`: prefix and suffix appear even when the name contributes
no characters, and the whole run ends with that line. -/
theorem greet_empty_string :
    greet "" = ["Hello, !"] ∧
    runMainWith "" = Except.ok (specLines.dropLast ++ ["Hello, !"]) :=
  ⟨rfl, runMainWith_eq ""⟩

end Basics
